import Mathlib

namespace Acorn

/-- Result of a completed child process as captured by the runner of either
script. The returncode field is the numeric exit status of the child process
and the two string fields are the captured text streams. -/
structure CommandResult where
  returncode : Int
  stdout : String
  stderr : String
deriving DecidableEq

/-- Outcome of attempting one child-process invocation. Either the process ran
to completion and produced a CommandResult, or the invocation itself raised an
exception carrying a message. -/
inductive Invocation where
  | ok (r : CommandResult)
  | exn (msg : String)
deriving DecidableEq

/-- Host environment for one run of a script. The chdir field records whether
the initial change into the hard-coded repository directory succeeds (none) or
raises with a message (some). The run field gives the outcome of the i-th
child-process invocation performed during the run, counting from zero. -/
structure Env where
  chdir : Option String
  run : Nat → Invocation

/-- One line written to standard output. Each constructor corresponds to one
print statement of the two scripts, holding the variable parts of the line. -/
inductive OutLine where
  | text (s : String)
  | commandLine (cmd : String)
  | outputLine (s : String)
  | errorLine (s : String)
  | separator
  | exceptionLine (cmd msg : String)
  | executing (cmd : String)
  | stderrLine (s : String)
  | returnCode (n : Int)
  | errorExecuting (msg : String)
deriving DecidableEq

/-- State threaded through a run of a script. The idx field counts child
invocations so far, cmds is the list of command strings handed to the shell in
order, output is the sequence of printed lines, and fs is the list of paths
that exist in the working tree. -/
structure ScriptState where
  idx : Nat
  cmds : List String
  output : List OutLine
  fs : List String
deriving DecidableEq

/-- An uncaught Python exception terminating a script early. It can come from
the initial directory change or from the one subprocess call of
git_operations.py that is not wrapped in a try block. -/
inductive Fatal where
  | chdirFail (msg : String)
  | rawRunFail (cmd : String) (msg : String)
deriving DecidableEq

def initState (fs0 : List String) : ScriptState :=
  { idx := 0, cmds := [], output := [], fs := fs0 }

def pushOut (s : ScriptState) (l : OutLine) : ScriptState :=
  { s with output := s.output ++ [l] }

/-- True when an invocation ran to completion and exited with status zero. -/
def isSuccess : Invocation → Bool
  | .ok r => r.returncode == 0
  | .exn _ => false

/-- run_git_command of git_operations.py. It attempts the invocation; on
completion it prints the command line, the stdout stream when nonempty, the
stderr stream when nonempty and a separator line, and returns whether the exit
status was zero; on an invocation exception it prints the exception line and
returns false. The attempted command is recorded in cmds either way and the
invocation counter advances. -/
def runGitCommand (env : Env) (cmd : String) (s : ScriptState) :
    Bool × ScriptState :=
  match env.run s.idx with
  | .ok r =>
      (r.returncode == 0,
        { s with
          idx := s.idx + 1
          cmds := s.cmds ++ [cmd]
          output := s.output ++ [.commandLine cmd]
            ++ (if r.stdout ≠ "" then [.outputLine r.stdout] else [])
            ++ (if r.stderr ≠ "" then [.errorLine r.stderr] else [])
            ++ [.separator] })
  | .exn e =>
      (false,
        { s with
          idx := s.idx + 1
          cmds := s.cmds ++ [cmd]
          output := s.output ++ [.exceptionLine cmd e] })

/-- execute_command of run_git_commands.py. It first prints the Executing
line, then attempts the invocation; on completion it prints the stdout stream
when nonempty, the STDERR line when nonempty and the Return code line, and
returns whether the exit status was zero; on an invocation exception it prints
the Error executing line and returns false. -/
def executeCommand (env : Env) (cmd : String) (s : ScriptState) :
    Bool × ScriptState :=
  let s0 := pushOut s (.executing cmd)
  match env.run s0.idx with
  | .ok r =>
      (r.returncode == 0,
        { s0 with
          idx := s0.idx + 1
          cmds := s0.cmds ++ [cmd]
          output := s0.output
            ++ (if r.stdout ≠ "" then [.text r.stdout] else [])
            ++ (if r.stderr ≠ "" then [.stderrLine r.stderr] else [])
            ++ [.returnCode r.returncode] })
  | .exn e =>
      (false,
        { s0 with
          idx := s0.idx + 1
          cmds := s0.cmds ++ [cmd]
          output := s0.output ++ [.errorExecuting e] })

def branchName : String := "fix/automation-framework-compatibility"

def checkoutNewCmd : String := "git checkout -b " ++ branchName

def checkoutExistingCmd : String := "git checkout " ++ branchName

def gitAddCmd (p : String) : String := "git add " ++ p

def commitCmd (m : String) : String := "git commit -m \"" ++ m ++ "\""

def msg1 : String :=
  "fix: update automation framework core.sh for bash compatibility\n\n- Replace \x27function\x27 keyword with POSIX-compliant syntax\n- Ensure compatibility with both bash and sh shells"

def msg2 : String :=
  "fix: replace associative arrays in auto script for POSIX compliance\n\n- Convert bash-specific associative arrays to portable implementation\n- Maintain functionality while ensuring shell compatibility"

def msg3 : String :=
  "feat: add missing .bash_profile.dir directory structure\n\n- Create required directory for modular bash configuration\n- Add .gitkeep to preserve empty directory in git"

def msg4 : String :=
  "feat: add --yes flag to initialize.sh for automated installation\n\n- Support non-interactive installation with --yes flag\n- Maintain backward compatibility with interactive mode"

def msg5 : String :=
  "feat: add yes-to-all support to automation tools module\n\n- Pass through --yes flag from parent scripts\n- Enable fully automated tool installation"

def msg6 : String :=
  "feat: enhance Makefile with new automation targets\n\n- Add targets for automated installation and testing\n- Improve development workflow with convenience commands"

def msgConfig : String :=
  "chore: update project configuration files\n\n- Update CLAUDE.md documentation\n- Add npm package configuration for development tools"

def hdr1 : OutLine := .text "\n=== Commit 1: Bash compatibility fix ==="

def hdr2 : OutLine := .text "\n=== Commit 2: Fix associative array compatibility ==="

def hdr4 : OutLine := .text "\n=== Commit 4: Add yes-to-all functionality ==="

def hdr5 : OutLine := .text "\n=== Commit 5: Update tools module ==="

def hdr6 : OutLine := .text "\n=== Commit 6: Add new make targets ==="

/-- The branch-creation block of git_operations.py. It prints the header, runs
git checkout -b; on success it prints the success line, otherwise it prints
the failure line and runs a plain git checkout of the same branch. -/
def branchPhase (env : Env) (s : ScriptState) : ScriptState :=
  let s1 := pushOut s
    (.text "\n=== Creating branch fix/automation-framework-compatibility ===")
  let p := runGitCommand env checkoutNewCmd s1
  if p.1 then pushOut p.2 (.text "Branch created successfully!")
  else
    (runGitCommand env checkoutExistingCmd
      (pushOut p.2 (.text "Failed to create branch. It might already exist."))).2

/-- One gated add-and-commit step of git_operations.py for commits 1, 2, 4, 5
and 6. When the path exists in the working tree it prints the header, stages
the path and commits with the given message; otherwise it does nothing. -/
def commitStep (env : Env) (path : String) (header : OutLine) (msg : String)
    (s : ScriptState) : ScriptState :=
  if path ∈ s.fs then
    let s1 := pushOut s header
    let s2 := (runGitCommand env (gitAddCmd path) s1).2
    (runGitCommand env (commitCmd msg) s2).2
  else s

/-- Commit 3 of git_operations.py. The gate is inverted relative to the other
steps: when .bash_profile.dir does NOT exist the script creates the directory
and writes an empty .gitkeep file inside it, then stages and commits it; when
the directory already exists the step does nothing. -/
def bashProfileDirStep (env : Env) (s : ScriptState) : ScriptState :=
  if ".bash_profile.dir" ∈ s.fs then s
  else
    let s1 := pushOut s (.text "\n=== Commit 3: Create bash profile directory ===")
    let s2 := { s1 with fs := s1.fs ++ [".bash_profile.dir", ".bash_profile.dir/.gitkeep"] }
    let s3 := (runGitCommand env (gitAddCmd ".bash_profile.dir/") s2).2
    (runGitCommand env (commitCmd msg3) s3).2

def configFiles : List String := ["CLAUDE.md", "package.json", "package-lock.json"]

/-- The files_to_add list of git_operations.py, namely the config files that
exist, in the fixed order of the source list. -/
def configChosen (fs : List String) : List String :=
  configFiles.filter (fun f => decide (f ∈ fs))

/-- The config-file block of git_operations.py. It prints the header, filters
the three config files by existence; when some exist it stages them with one
git add, then invokes git diff --cached --quiet directly through subprocess
with no try block, so an invocation exception there is fatal; when the diff
reports staged changes (nonzero status) it commits them. -/
def configStep (env : Env) (s : ScriptState) : ScriptState × Option Fatal :=
  let s0 := pushOut s (.text "\n=== Checking for additional project config files ===")
  if (configChosen s0.fs).isEmpty then (s0, none)
  else
    let s1 := (runGitCommand env
      (gitAddCmd (String.intercalate " " (configChosen s0.fs))) s0).2
    match env.run s1.idx with
    | .exn e => (s1, some (.rawRunFail "git diff --cached --quiet" e))
    | .ok r =>
        let s2 := { s1 with idx := s1.idx + 1,
                            cmds := s1.cmds ++ ["git diff --cached --quiet"] }
        if r.returncode ≠ 0 then ((runGitCommand env (commitCmd msgConfig) s2).2, none)
        else (s2, none)

/-- The closing block of git_operations.py. It prints the final status header,
runs git status and a short git log, then prints the three closing lines. -/
def finalPhase (env : Env) (s : ScriptState) : ScriptState :=
  let s1 := (runGitCommand env "git log --oneline -10"
    (runGitCommand env "git status"
      (pushOut s (.text "\n=== Final git status ==="))).2).2
  pushOut (pushOut (pushOut s1 (.text "\n=== Operation complete! ==="))
      (.text "Branch created and commits made successfully!"))
    (.text ("You can now push with: git push -u origin " ++ branchName))

/-- The straight-line portion of git_operations.py from the initial status
check through commit 6, in source order. -/
def stagedState (env : Env) (fs0 : List String) : ScriptState :=
  commitStep env "Makefile" hdr6 msg6
    (commitStep env ".automation/modules/tools.sh" hdr5 msg5
      (commitStep env "initialize.sh" hdr4 msg4
        (bashProfileDirStep env
          (commitStep env ".automation/auto" hdr2 msg2
            (commitStep env ".automation/framework/core.sh" hdr1 msg1
              (branchPhase env
                (runGitCommand env "git status"
                  (pushOut (initState fs0)
                    (OutLine.text "=== Checking current git status ==="))).2))))))

/-- Whole-script semantics of git_operations.py. A failing initial directory
change is an uncaught exception before any print; otherwise the script runs
the status check, the branch block, the six gated commit steps, the
config-file block (whose raw subprocess call can be fatal) and the closing
block. -/
def gitOperationsScript (env : Env) (fs0 : List String) :
    ScriptState × Option Fatal :=
  match env.chdir with
  | some e => (initState fs0, some (Fatal.chdirFail e))
  | none =>
      match configStep env (stagedState env fs0) with
      | (s, some f) => (s, some f)
      | (s, none) => (finalPhase env s, none)

def workingDirLine : String :=
  "Working directory: /Users/mistergrinvalds/Repos/personal/bash-profile"

/-- Whole-script semantics of run_git_commands.py. After the directory change
it prints two opening lines, executes git status, the branch creation and git
branch through execute_command, ignoring all three results, and prints the
five closing lines. It consults the filesystem nowhere. -/
def runGitCommandsScript (env : Env) (fs0 : List String) :
    ScriptState × Option Fatal :=
  match env.chdir with
  | some e => (initState fs0, some (Fatal.chdirFail e))
  | none =>
      let s := pushOut (initState fs0)
        (.text "Starting git operations for bash-profile repository")
      let s := pushOut s (.text workingDirLine)
      let s := (executeCommand env "git status" s).2
      let s := (executeCommand env checkoutNewCmd s).2
      let s := (executeCommand env "git branch" s).2
      let s := pushOut s (.text "\nGit operations completed!")
      let s := pushOut s (.text "Next steps:")
      let s := pushOut s (.text "1. Add your files with: git add <files>")
      let s := pushOut s (.text "2. Make commits with: git commit -m \x27your message\x27")
      let s := pushOut s (.text ("3. Push with: git push -u origin " ++ branchName))
      (s, none)

/-- True when a command string begins with the ten characters of git commit,
so exactly the commit invocations of either script. Stated over the character
data of the string so that it evaluates by kernel reduction. -/
def isCommitInvocation (c : String) : Bool :=
  c.data.take 10 == "git commit".data

/-- True when a command string begins with the seven characters of git add,
so exactly the staging invocations of either script. -/
def isAddInvocation (c : String) : Bool :=
  c.data.take 7 == "git add".data

/-- Number of commands in the trace of a finished state that are commit
invocations whose child exited with status zero. Command i of the trace was
run against outcome i of the environment, since both scripts advance the
invocation counter exactly when they record a command. -/
def successfulCommitCount (env : Env) (st : ScriptState) : Nat :=
  ((List.range st.cmds.length).filter (fun i =>
    isCommitInvocation (st.cmds.getD i "") && isSuccess (env.run i))).length

/-- The seven possible argument lists of the config-file git add command, one
for each nonempty subset of the three config files, in filter order. -/
def configAddCmds : List String :=
  [gitAddCmd "CLAUDE.md", gitAddCmd "package.json", gitAddCmd "package-lock.json",
   gitAddCmd "CLAUDE.md package.json", gitAddCmd "CLAUDE.md package-lock.json",
   gitAddCmd "package.json package-lock.json",
   gitAddCmd "CLAUDE.md package.json package-lock.json"]

def mkRes (n : Int) : CommandResult := { returncode := n, stdout := "", stderr := "" }

def envAllOk : Env := { chdir := none, run := fun _ => .ok (mkRes 0) }

def envCode (n : Int) : Env := { chdir := none, run := fun _ => .ok (mkRes n) }

def envBranchFails : Env :=
  { chdir := none, run := fun i => .ok (mkRes (if i == 1 then 1 else 0)) }

def envStderrCode (n : Int) : Env :=
  { chdir := none,
    run := fun _ => .ok { returncode := n, stdout := "", stderr := "warning" } }

def envRaises : Env := { chdir := none, run := fun _ => .exn "No such file or directory" }

def envDiffRaises : Env :=
  { chdir := none, run := fun i => if i == 3 then .exn "boom" else .ok (mkRes 0) }

@[simp] theorem pushOut_idx (s : ScriptState) (l : OutLine) : (pushOut s l).idx = s.idx := rfl

@[simp] theorem pushOut_cmds (s : ScriptState) (l : OutLine) : (pushOut s l).cmds = s.cmds := rfl

@[simp] theorem pushOut_fs (s : ScriptState) (l : OutLine) : (pushOut s l).fs = s.fs := rfl

@[simp] theorem pushOut_output (s : ScriptState) (l : OutLine) :
    (pushOut s l).output = s.output ++ [l] := rfl

@[simp] theorem runGitCommand_fst (env : Env) (cmd : String) (s : ScriptState) :
    (runGitCommand env cmd s).1 = isSuccess (env.run s.idx) := by
  unfold runGitCommand
  rcases h : env.run s.idx with r | e <;> simp [h, isSuccess]

@[simp] theorem runGitCommand_cmds (env : Env) (cmd : String) (s : ScriptState) :
    (runGitCommand env cmd s).2.cmds = s.cmds ++ [cmd] := by
  unfold runGitCommand
  rcases h : env.run s.idx with r | e <;> simp [h]

@[simp] theorem runGitCommand_idx (env : Env) (cmd : String) (s : ScriptState) :
    (runGitCommand env cmd s).2.idx = s.idx + 1 := by
  unfold runGitCommand
  rcases h : env.run s.idx with r | e <;> simp [h]

@[simp] theorem runGitCommand_fs (env : Env) (cmd : String) (s : ScriptState) :
    (runGitCommand env cmd s).2.fs = s.fs := by
  unfold runGitCommand
  rcases h : env.run s.idx with r | e <;> simp [h]

theorem runGitCommand_output_mono (env : Env) (cmd : String) (s : ScriptState)
    {x : OutLine} (h : x ∈ s.output) : x ∈ (runGitCommand env cmd s).2.output := by
  unfold runGitCommand
  rcases he : env.run s.idx with r | e <;> simp [he, h]

@[simp] theorem executeCommand_fst (env : Env) (cmd : String) (s : ScriptState) :
    (executeCommand env cmd s).1 = isSuccess (env.run s.idx) := by
  unfold executeCommand
  rcases h : env.run s.idx with r | e <;> simp [h, isSuccess, pushOut]

@[simp] theorem executeCommand_cmds (env : Env) (cmd : String) (s : ScriptState) :
    (executeCommand env cmd s).2.cmds = s.cmds ++ [cmd] := by
  unfold executeCommand
  rcases h : env.run s.idx with r | e <;> simp [h, pushOut]

@[simp] theorem executeCommand_idx (env : Env) (cmd : String) (s : ScriptState) :
    (executeCommand env cmd s).2.idx = s.idx + 1 := by
  unfold executeCommand
  rcases h : env.run s.idx with r | e <;> simp [h, pushOut]

@[simp] theorem executeCommand_fs (env : Env) (cmd : String) (s : ScriptState) :
    (executeCommand env cmd s).2.fs = s.fs := by
  unfold executeCommand
  rcases h : env.run s.idx with r | e <;> simp [h, pushOut]

@[simp] theorem commitStep_fs (env : Env) (path : String) (header : OutLine)
    (msg : String) (s : ScriptState) :
    (commitStep env path header msg s).fs = s.fs := by
  unfold commitStep
  split <;> simp

@[simp] theorem commitStep_idx (env : Env) (path : String) (header : OutLine)
    (msg : String) (s : ScriptState) :
    (commitStep env path header msg s).idx
      = s.idx + (if path ∈ s.fs then 2 else 0) := by
  unfold commitStep
  split <;> simp_all

theorem commitStep_cmds (env : Env) (path : String) (header : OutLine)
    (msg : String) (s : ScriptState) :
    (commitStep env path header msg s).cmds
      = s.cmds ++ (if path ∈ s.fs then [gitAddCmd path, commitCmd msg] else []) := by
  unfold commitStep
  split <;> simp_all

@[simp] theorem bashProfileDirStep_fs (env : Env) (s : ScriptState) :
    (bashProfileDirStep env s).fs
      = if ".bash_profile.dir" ∈ s.fs then s.fs
        else s.fs ++ [".bash_profile.dir", ".bash_profile.dir/.gitkeep"] := by
  unfold bashProfileDirStep
  split <;> simp_all

theorem bashProfileDirStep_cmds (env : Env) (s : ScriptState) :
    (bashProfileDirStep env s).cmds
      = s.cmds ++ (if ".bash_profile.dir" ∈ s.fs then []
          else [gitAddCmd ".bash_profile.dir/", commitCmd msg3]) := by
  unfold bashProfileDirStep
  split <;> simp_all

@[simp] theorem branchPhase_fs (env : Env) (s : ScriptState) :
    (branchPhase env s).fs = s.fs := by
  unfold branchPhase
  dsimp only
  split <;> simp

theorem branchPhase_cmds (env : Env) (s : ScriptState) :
    (branchPhase env s).cmds
      = s.cmds ++ (if isSuccess (env.run s.idx) then [checkoutNewCmd]
          else [checkoutNewCmd, checkoutExistingCmd]) := by
  unfold branchPhase
  dsimp only
  simp only [runGitCommand_fst, pushOut_idx]
  split <;> simp_all

theorem finalPhase_cmds (env : Env) (s : ScriptState) :
    (finalPhase env s).cmds = s.cmds ++ ["git status", "git log --oneline -10"] := by
  unfold finalPhase
  dsimp only
  simp

@[simp] theorem finalPhase_fs (env : Env) (s : ScriptState) :
    (finalPhase env s).fs = s.fs := by
  unfold finalPhase
  dsimp only
  simp

@[simp] theorem initState_idx (fs0 : List String) : (initState fs0).idx = 0 := rfl

@[simp] theorem initState_cmds (fs0 : List String) : (initState fs0).cmds = [] := rfl

@[simp] theorem initState_output (fs0 : List String) : (initState fs0).output = [] := rfl

@[simp] theorem initState_fs (fs0 : List String) : (initState fs0).fs = fs0 := rfl

theorem mem_ite_or {α : Type} {P : Prop} [Decidable P] {c : α} {l1 l2 : List α}
    (h : c ∈ if P then l1 else l2) : c ∈ l1 ∨ c ∈ l2 := by
  split at h
  · exact Or.inl h
  · exact Or.inr h

theorem mem_ite_gate {α : Type} {P : Prop} [Decidable P] {c : α} {l : List α}
    (h : c ∈ if P then l else []) : P ∧ c ∈ l := by
  split at h
  · exact ⟨by assumption, h⟩
  · simp at h

theorem mem_ite_gate_neg {α : Type} {P : Prop} [Decidable P] {c : α} {l : List α}
    (h : c ∈ if P then [] else l) : ¬P ∧ c ∈ l := by
  split at h
  · simp at h
  · exact ⟨by assumption, h⟩

theorem commitStep_cmds_mono {env : Env} {path : String} {header : OutLine}
    {msg : String} {s : ScriptState} {c : String} (h : c ∈ s.cmds) :
    c ∈ (commitStep env path header msg s).cmds := by
  rw [commitStep_cmds]
  exact List.mem_append_left _ h

theorem bashProfileDirStep_cmds_mono {env : Env} {s : ScriptState} {c : String}
    (h : c ∈ s.cmds) : c ∈ (bashProfileDirStep env s).cmds := by
  rw [bashProfileDirStep_cmds]
  exact List.mem_append_left _ h

theorem finalPhase_cmds_mono {env : Env} {s : ScriptState} {c : String}
    (h : c ∈ s.cmds) : c ∈ (finalPhase env s).cmds := by
  rw [finalPhase_cmds]
  exact List.mem_append_left _ h

@[simp] theorem configStep_fs (env : Env) (s : ScriptState) :
    (configStep env s).1.fs = s.fs := by
  unfold configStep
  dsimp only
  split
  · simp
  · split <;> [simp; split <;> simp]

theorem configStep_fatal {env : Env} {s : ScriptState} {f : Fatal}
    (h : (configStep env s).2 = some f) :
    ∃ m, f = Fatal.rawRunFail "git diff --cached --quiet" m := by
  unfold configStep at h
  dsimp only at h
  split at h
  · simp at h
  · split at h
    · simp at h
      exact ⟨_, h.symm⟩
    · split at h <;> simp at h

theorem configStep_cmds_mono {env : Env} {s : ScriptState} {c : String}
    (h : c ∈ s.cmds) : c ∈ (configStep env s).1.cmds := by
  unfold configStep
  dsimp only
  split
  · simpa using h
  · split <;> [simp [h]; split <;> simp [h]]

theorem configStep_skip {env : Env} {s : ScriptState} (h1 : "CLAUDE.md" ∉ s.fs)
    (h2 : "package.json" ∉ s.fs) (h3 : "package-lock.json" ∉ s.fs) :
    (configStep env s).1.cmds = s.cmds ∧ (configStep env s).2 = none := by
  unfold configStep
  simp [configChosen, configFiles, h1, h2, h3]

theorem configChosen_add_mem (fs : List String)
    (h : (configChosen fs).isEmpty = false) :
    gitAddCmd (String.intercalate " " (configChosen fs)) ∈ configAddCmds := by
  unfold configChosen at h ⊢
  by_cases h1 : "CLAUDE.md" ∈ fs <;> by_cases h2 : "package.json" ∈ fs <;>
    by_cases h3 : "package-lock.json" ∈ fs <;>
    simp_all [configFiles] <;> decide

theorem configStep_cmds_sub {env : Env} {s : ScriptState} {c : String}
    (h : c ∈ (configStep env s).1.cmds) :
    c ∈ s.cmds ∨ c ∈ configAddCmds ∨ c = "git diff --cached --quiet"
      ∨ c = commitCmd msgConfig := by
  unfold configStep at h
  dsimp only at h
  split at h
  · exact Or.inl (by simpa using h)
  case isFalse hne =>
    rw [Bool.not_eq_true, pushOut_fs] at hne
    have hadd := configChosen_add_mem s.fs hne
    split at h
    · simp at h
      rcases h with h | h
      · exact Or.inl h
      · exact Or.inr (Or.inl (by rw [h]; exact hadd))
    · split at h
      · simp at h
        rcases h with h | h | h | h
        · exact Or.inl h
        · exact Or.inr (Or.inl (by rw [h]; exact hadd))
        · exact Or.inr (Or.inr (Or.inl h))
        · exact Or.inr (Or.inr (Or.inr h))
      · simp at h
        rcases h with h | h | h
        · exact Or.inl h
        · exact Or.inr (Or.inl (by rw [h]; exact hadd))
        · exact Or.inr (Or.inr (Or.inl h))

theorem finalPhase_output_mem (env : Env) (s : ScriptState) :
    OutLine.text "\n=== Final git status ===" ∈ (finalPhase env s).output
    ∧ OutLine.text "\n=== Operation complete! ===" ∈ (finalPhase env s).output := by
  unfold finalPhase
  dsimp only
  have h1 : OutLine.text "\n=== Final git status ==="
      ∈ (pushOut s (OutLine.text "\n=== Final git status ===")).output := by simp
  have h2 := runGitCommand_output_mono env "git status" _ h1
  have h3 := runGitCommand_output_mono env "git log --oneline -10" _ h2
  constructor
  · simp [h3]
  · simp

theorem commitStep_sub {env : Env} {path : String} {header : OutLine}
    {msg : String} {s : ScriptState} {c : String}
    (h : c ∈ (commitStep env path header msg s).cmds) :
    c ∈ s.cmds ∨ (path ∈ s.fs ∧ (c = gitAddCmd path ∨ c = commitCmd msg)) := by
  rw [commitStep_cmds] at h
  rcases List.mem_append.mp h with h | h
  · exact Or.inl h
  · rcases mem_ite_gate h with ⟨hp, hc⟩
    simp at hc
    exact Or.inr ⟨hp, hc⟩

theorem bashProfileDirStep_sub {env : Env} {s : ScriptState} {c : String}
    (h : c ∈ (bashProfileDirStep env s).cmds) :
    c ∈ s.cmds ∨ (".bash_profile.dir" ∉ s.fs
      ∧ (c = gitAddCmd ".bash_profile.dir/" ∨ c = commitCmd msg3)) := by
  rw [bashProfileDirStep_cmds] at h
  rcases List.mem_append.mp h with h | h
  · exact Or.inl h
  · rcases mem_ite_gate_neg h with ⟨hp, hc⟩
    simp at hc
    exact Or.inr ⟨hp, hc⟩

theorem branchPhase_sub {env : Env} {s : ScriptState} {c : String}
    (h : c ∈ (branchPhase env s).cmds) :
    c ∈ s.cmds ∨ c = checkoutNewCmd ∨ c = checkoutExistingCmd := by
  rw [branchPhase_cmds] at h
  rcases List.mem_append.mp h with h | h
  · exact Or.inl h
  · rcases mem_ite_or h with h | h <;> simp at h <;> tauto

theorem finalPhase_sub {env : Env} {s : ScriptState} {c : String}
    (h : c ∈ (finalPhase env s).cmds) :
    c ∈ s.cmds ∨ c = "git status" ∨ c = "git log --oneline -10" := by
  rw [finalPhase_cmds] at h
  rcases List.mem_append.mp h with h | h
  · exact Or.inl h
  · simp at h
    tauto

theorem mem_of_mem_bashProfileFs {p : String} {fs0 : List String}
    (hp : p ∈ if ".bash_profile.dir" ∈ fs0 then fs0
        else fs0 ++ [".bash_profile.dir", ".bash_profile.dir/.gitkeep"])
    (h1 : p ≠ ".bash_profile.dir") (h2 : p ≠ ".bash_profile.dir/.gitkeep") :
    p ∈ fs0 := by
  rcases mem_ite_or hp with hp | hp
  · exact hp
  · simp [h1, h2] at hp
    exact hp

theorem stagedState_fs (env : Env) (fs0 : List String) :
    (stagedState env fs0).fs
      = if ".bash_profile.dir" ∈ fs0 then fs0
        else fs0 ++ [".bash_profile.dir", ".bash_profile.dir/.gitkeep"] := by
  unfold stagedState
  simp

theorem stagedState_cmds_sub {env : Env} {fs0 : List String} {c : String}
    (h : c ∈ (stagedState env fs0).cmds) :
    c = "git status" ∨ c = checkoutNewCmd ∨ c = checkoutExistingCmd
    ∨ (".automation/framework/core.sh" ∈ fs0
        ∧ (c = gitAddCmd ".automation/framework/core.sh" ∨ c = commitCmd msg1))
    ∨ (".automation/auto" ∈ fs0 ∧ (c = gitAddCmd ".automation/auto" ∨ c = commitCmd msg2))
    ∨ (".bash_profile.dir" ∉ fs0 ∧ (c = gitAddCmd ".bash_profile.dir/" ∨ c = commitCmd msg3))
    ∨ ("initialize.sh" ∈ fs0 ∧ (c = gitAddCmd "initialize.sh" ∨ c = commitCmd msg4))
    ∨ (".automation/modules/tools.sh" ∈ fs0
        ∧ (c = gitAddCmd ".automation/modules/tools.sh" ∨ c = commitCmd msg5))
    ∨ ("Makefile" ∈ fs0 ∧ (c = gitAddCmd "Makefile" ∨ c = commitCmd msg6)) := by
  unfold stagedState at h
  rcases commitStep_sub h with h | ⟨hp, hc⟩
  · rcases commitStep_sub h with h | ⟨hp, hc⟩
    · rcases commitStep_sub h with h | ⟨hp, hc⟩
      · rcases bashProfileDirStep_sub h with h | ⟨hnp, hc⟩
        · rcases commitStep_sub h with h | ⟨hp, hc⟩
          · rcases commitStep_sub h with h | ⟨hp, hc⟩
            · rcases branchPhase_sub h with h | h | h
              · simp at h
                exact Or.inl h
              · exact Or.inr (Or.inl h)
              · exact Or.inr (Or.inr (Or.inl h))
            · exact Or.inr (Or.inr (Or.inr (Or.inl ⟨by simpa using hp, hc⟩)))
          · exact Or.inr (Or.inr (Or.inr (Or.inr (Or.inl ⟨by simpa using hp, hc⟩))))
        · refine Or.inr (Or.inr (Or.inr (Or.inr (Or.inr (Or.inl ⟨?_, hc⟩)))))
          simpa using hnp
      · refine Or.inr (Or.inr (Or.inr (Or.inr (Or.inr (Or.inr (Or.inl ⟨?_, hc⟩))))))
        have hp2 : "initialize.sh" ∈ (if ".bash_profile.dir" ∈ fs0 then fs0
            else fs0 ++ [".bash_profile.dir", ".bash_profile.dir/.gitkeep"]) := by
          simpa using hp
        exact mem_of_mem_bashProfileFs hp2 (by decide) (by decide)
    · refine Or.inr (Or.inr (Or.inr (Or.inr (Or.inr (Or.inr (Or.inr (Or.inl ⟨?_, hc⟩)))))))
      have hp2 : ".automation/modules/tools.sh" ∈ (if ".bash_profile.dir" ∈ fs0 then fs0
          else fs0 ++ [".bash_profile.dir", ".bash_profile.dir/.gitkeep"]) := by
        simpa using hp
      exact mem_of_mem_bashProfileFs hp2 (by decide) (by decide)
  · refine Or.inr (Or.inr (Or.inr (Or.inr (Or.inr (Or.inr (Or.inr (Or.inr ⟨?_, hc⟩)))))))
    have hp2 : "Makefile" ∈ (if ".bash_profile.dir" ∈ fs0 then fs0
        else fs0 ++ [".bash_profile.dir", ".bash_profile.dir/.gitkeep"]) := by
      simpa using hp
    exact mem_of_mem_bashProfileFs hp2 (by decide) (by decide)

theorem stagedState_fallback {env : Env} {fs0 : List String}
    (hb : isSuccess (env.run 1) = false) :
    checkoutExistingCmd ∈ (stagedState env fs0).cmds := by
  unfold stagedState
  apply commitStep_cmds_mono
  apply commitStep_cmds_mono
  apply commitStep_cmds_mono
  apply bashProfileDirStep_cmds_mono
  apply commitStep_cmds_mono
  apply commitStep_cmds_mono
  rw [branchPhase_cmds]
  simp [hb]

theorem configStep_sub_gated {env : Env} {s : ScriptState} {c : String}
    (h : c ∈ (configStep env s).1.cmds) :
    c ∈ s.cmds ∨ (("CLAUDE.md" ∈ s.fs ∨ "package.json" ∈ s.fs ∨ "package-lock.json" ∈ s.fs)
      ∧ (c ∈ configAddCmds ∨ c = "git diff --cached --quiet" ∨ c = commitCmd msgConfig)) := by
  by_cases hcfg : "CLAUDE.md" ∈ s.fs ∨ "package.json" ∈ s.fs ∨ "package-lock.json" ∈ s.fs
  · rcases configStep_cmds_sub h with h | h | h | h
    · exact Or.inl h
    · exact Or.inr ⟨hcfg, Or.inl h⟩
    · exact Or.inr ⟨hcfg, Or.inr (Or.inl h)⟩
    · exact Or.inr ⟨hcfg, Or.inr (Or.inr h)⟩
  · push_neg at hcfg
    obtain ⟨h1, h2, h3⟩ := hcfg
    rw [(configStep_skip h1 h2 h3).1] at h
    exact Or.inl h

theorem gitOps_cmds_sub {env : Env} {fs0 : List String} {c : String}
    (h : c ∈ (gitOperationsScript env fs0).1.cmds) :
    c = "git status" ∨ c = checkoutNewCmd ∨ c = checkoutExistingCmd
    ∨ c = "git log --oneline -10"
    ∨ (".automation/framework/core.sh" ∈ fs0
        ∧ (c = gitAddCmd ".automation/framework/core.sh" ∨ c = commitCmd msg1))
    ∨ (".automation/auto" ∈ fs0 ∧ (c = gitAddCmd ".automation/auto" ∨ c = commitCmd msg2))
    ∨ (".bash_profile.dir" ∉ fs0 ∧ (c = gitAddCmd ".bash_profile.dir/" ∨ c = commitCmd msg3))
    ∨ ("initialize.sh" ∈ fs0 ∧ (c = gitAddCmd "initialize.sh" ∨ c = commitCmd msg4))
    ∨ (".automation/modules/tools.sh" ∈ fs0
        ∧ (c = gitAddCmd ".automation/modules/tools.sh" ∨ c = commitCmd msg5))
    ∨ ("Makefile" ∈ fs0 ∧ (c = gitAddCmd "Makefile" ∨ c = commitCmd msg6))
    ∨ (("CLAUDE.md" ∈ fs0 ∨ "package.json" ∈ fs0 ∨ "package-lock.json" ∈ fs0)
        ∧ (c ∈ configAddCmds ∨ c = "git diff --cached --quiet" ∨ c = commitCmd msgConfig)) := by
  have hconv : ∀ {p : String}, p ≠ ".bash_profile.dir" → p ≠ ".bash_profile.dir/.gitkeep" →
      p ∈ (stagedState env fs0).fs → p ∈ fs0 := by
    intro p hn1 hn2 hp
    rw [stagedState_fs] at hp
    exact mem_of_mem_bashProfileFs hp hn1 hn2
  unfold gitOperationsScript at h
  rcases hcd : env.chdir with _ | e
  · rw [hcd] at h
    rcases hcs : configStep env (stagedState env fs0) with ⟨s', f⟩
    rw [hcs] at h
    have hmem : c ∈ (configStep env (stagedState env fs0)).1.cmds
        ∨ (c = "git status" ∨ c = "git log --oneline -10") := by
      cases f
      · dsimp at h
        rcases finalPhase_sub h with h | h | h
        · left
          rw [hcs]
          exact h
        · exact Or.inr (Or.inl h)
        · exact Or.inr (Or.inr h)
      · dsimp at h
        left
        rw [hcs]
        exact h
    rcases hmem with hmem | hg
    · rcases configStep_sub_gated hmem with hmem | ⟨hcfg, hc⟩
      · rcases stagedState_cmds_sub hmem with h | h | h | h | h | h | h | h | h
        · exact Or.inl h
        · exact Or.inr (Or.inl h)
        · exact Or.inr (Or.inr (Or.inl h))
        · exact Or.inr (Or.inr (Or.inr (Or.inr (Or.inl h))))
        · exact Or.inr (Or.inr (Or.inr (Or.inr (Or.inr (Or.inl h)))))
        · exact Or.inr (Or.inr (Or.inr (Or.inr (Or.inr (Or.inr (Or.inl h))))))
        · exact Or.inr (Or.inr (Or.inr (Or.inr (Or.inr (Or.inr (Or.inr (Or.inl h)))))))
        · exact Or.inr (Or.inr (Or.inr (Or.inr (Or.inr (Or.inr (Or.inr (Or.inr
            (Or.inl h))))))))
        · exact Or.inr (Or.inr (Or.inr (Or.inr (Or.inr (Or.inr (Or.inr (Or.inr
            (Or.inr (Or.inl h)))))))))
      · refine Or.inr (Or.inr (Or.inr (Or.inr (Or.inr (Or.inr (Or.inr (Or.inr
          (Or.inr (Or.inr ⟨?_, hc⟩)))))))))
        rcases hcfg with h1 | h1 | h1
        · exact Or.inl (hconv (by decide) (by decide) h1)
        · exact Or.inr (Or.inl (hconv (by decide) (by decide) h1))
        · exact Or.inr (Or.inr (hconv (by decide) (by decide) h1))
    · rcases hg with hg | hg
      · exact Or.inl hg
      · exact Or.inr (Or.inr (Or.inr (Or.inl hg)))
  · rw [hcd] at h
    simp at h

theorem gitOps_fatal_sub {env : Env} {fs0 : List String} {f : Fatal}
    (h : (gitOperationsScript env fs0).2 = some f) :
    (∃ m, f = Fatal.chdirFail m)
    ∨ ∃ m, f = Fatal.rawRunFail "git diff --cached --quiet" m := by
  unfold gitOperationsScript at h
  rcases hcd : env.chdir with _ | e
  · rw [hcd] at h
    rcases hcs : configStep env (stagedState env fs0) with ⟨s', g⟩
    rw [hcs] at h
    cases g
    · simp at h
    · dsimp at h
      injection h with h
      subst h
      exact Or.inr (configStep_fatal (by rw [hcs]))
  · rw [hcd] at h
    dsimp at h
    injection h with h
    subst h
    exact Or.inl ⟨e, rfl⟩

theorem gitOps_complete {env : Env} {fs0 : List String}
    (h : (gitOperationsScript env fs0).2 = none) :
    OutLine.text "\n=== Final git status ===" ∈ (gitOperationsScript env fs0).1.output
    ∧ OutLine.text "\n=== Operation complete! ===" ∈ (gitOperationsScript env fs0).1.output
    ∧ "git log --oneline -10" ∈ (gitOperationsScript env fs0).1.cmds := by
  unfold gitOperationsScript at h ⊢
  rcases hcd : env.chdir with _ | e
  · rw [hcd] at h
    rcases hcs : configStep env (stagedState env fs0) with ⟨s', g⟩
    rw [hcs] at h
    cases g
    · dsimp at h ⊢
      refine ⟨(finalPhase_output_mem env s').1, (finalPhase_output_mem env s').2, ?_⟩
      rw [finalPhase_cmds]
      simp
    · simp at h
  · rw [hcd] at h
    simp at h

theorem gitOps_fs_char (env : Env) (fs0 : List String) :
    (gitOperationsScript env fs0).1.fs
      = if env.chdir = none ∧ ".bash_profile.dir" ∉ fs0
        then fs0 ++ [".bash_profile.dir", ".bash_profile.dir/.gitkeep"] else fs0 := by
  unfold gitOperationsScript
  rcases hcd : env.chdir with _ | e
  · rcases hcs : configStep env (stagedState env fs0) with ⟨s', g⟩
    have hs' : s'.fs = (stagedState env fs0).fs := by
      have h2 := configStep_fs env (stagedState env fs0)
      rw [hcs] at h2
      exact h2
    cases g
    · dsimp
      rw [finalPhase_fs, hs', stagedState_fs]
      by_cases hd : ".bash_profile.dir" ∈ fs0 <;> simp [hd]
    · dsimp
      rw [hs', stagedState_fs]
      by_cases hd : ".bash_profile.dir" ∈ fs0 <;> simp [hd]
  · dsimp

theorem runGitCommandsScript_cmds (env : Env) (fs0 : List String)
    (h : env.chdir = none) :
    (runGitCommandsScript env fs0).1.cmds
      = ["git status", checkoutNewCmd, "git branch"] := by
  unfold runGitCommandsScript
  rw [h]
  dsimp only
  simp

theorem runGitCommandsScript_fatal (env : Env) (fs0 : List String)
    (h : env.chdir = none) : (runGitCommandsScript env fs0).2 = none := by
  unfold runGitCommandsScript
  rw [h]

@[simp] theorem runGitCommandsScript_fs (env : Env) (fs0 : List String) :
    (runGitCommandsScript env fs0).1.fs = fs0 := by
  unfold runGitCommandsScript
  rcases hcd : env.chdir with _ | e
  · dsimp only
    simp
  · rfl

theorem runGitCommandsScript_fs_independent (env : Env) (fs0 fs1 : List String)
    (h : env.chdir = none) :
    (runGitCommandsScript env fs0).1.cmds = (runGitCommandsScript env fs1).1.cmds
    ∧ (runGitCommandsScript env fs0).1.output
        = (runGitCommandsScript env fs1).1.output := by
  unfold runGitCommandsScript
  rw [h]
  dsimp only
  rcases h0 : env.run 0 with r0 | e0 <;> rcases h1 : env.run 1 with r1 | e1 <;>
    rcases h2 : env.run 2 with r2 | e2 <;>
    simp [executeCommand, pushOut, initState, h0, h1, h2]

theorem gitOps_not_mem_of {env : Env} {fs0 : List String} {c : String}
    (h1 : c ≠ "git status") (h2 : c ≠ checkoutNewCmd) (h3 : c ≠ checkoutExistingCmd)
    (h4 : c ≠ "git log --oneline -10")
    (h5 : ".automation/framework/core.sh" ∈ fs0 →
      c ≠ gitAddCmd ".automation/framework/core.sh" ∧ c ≠ commitCmd msg1)
    (h6 : ".automation/auto" ∈ fs0 → c ≠ gitAddCmd ".automation/auto" ∧ c ≠ commitCmd msg2)
    (h7 : ".bash_profile.dir" ∉ fs0 →
      c ≠ gitAddCmd ".bash_profile.dir/" ∧ c ≠ commitCmd msg3)
    (h8 : "initialize.sh" ∈ fs0 → c ≠ gitAddCmd "initialize.sh" ∧ c ≠ commitCmd msg4)
    (h9 : ".automation/modules/tools.sh" ∈ fs0 →
      c ≠ gitAddCmd ".automation/modules/tools.sh" ∧ c ≠ commitCmd msg5)
    (h10 : "Makefile" ∈ fs0 → c ≠ gitAddCmd "Makefile" ∧ c ≠ commitCmd msg6)
    (h11 : ("CLAUDE.md" ∈ fs0 ∨ "package.json" ∈ fs0 ∨ "package-lock.json" ∈ fs0) →
      c ∉ configAddCmds ∧ c ≠ "git diff --cached --quiet" ∧ c ≠ commitCmd msgConfig) :
    c ∉ (gitOperationsScript env fs0).1.cmds := by
  intro hmem
  rcases gitOps_cmds_sub hmem with
    h | h | h | h | ⟨hg, h | h⟩ | ⟨hg, h | h⟩ | ⟨hg, h | h⟩ | ⟨hg, h | h⟩ | ⟨hg, h | h⟩ |
    ⟨hg, h | h⟩ | ⟨hg, h | h | h⟩
  · exact h1 h
  · exact h2 h
  · exact h3 h
  · exact h4 h
  · exact (h5 hg).1 h
  · exact (h5 hg).2 h
  · exact (h6 hg).1 h
  · exact (h6 hg).2 h
  · exact (h7 hg).1 h
  · exact (h7 hg).2 h
  · exact (h8 hg).1 h
  · exact (h8 hg).2 h
  · exact (h9 hg).1 h
  · exact (h9 hg).2 h
  · exact (h10 hg).1 h
  · exact (h10 hg).2 h
  · exact (h11 hg).1 h
  · exact (h11 hg).2.1 h
  · exact (h11 hg).2.2 h

theorem gitOps_no_config_cmds {env : Env} {fs0 : List String}
    (hA : "CLAUDE.md" ∉ fs0) (hB : "package.json" ∉ fs0)
    (hC : "package-lock.json" ∉ fs0) {c : String}
    (hc : c ∈ configAddCmds ∨ c = commitCmd msgConfig) :
    c ∉ (gitOperationsScript env fs0).1.cmds := by
  intro hmem
  rcases gitOps_cmds_sub hmem with
    h | h | h | h | ⟨hg, h | h⟩ | ⟨hg, h | h⟩ | ⟨hg, h | h⟩ | ⟨hg, h | h⟩ | ⟨hg, h | h⟩ |
    ⟨hg, h | h⟩ | ⟨hg, h⟩
  all_goals first
    | (subst h; revert hc; decide)
    | (rcases hg with x | x | x
       · exact hA x
       · exact hB x
       · exact hC x)

theorem successfulCommitCount_eq_zero {env : Env} {st : ScriptState}
    (h : ∀ c ∈ st.cmds, isCommitInvocation c = false) :
    successfulCommitCount env st = 0 := by
  unfold successfulCommitCount
  rw [List.length_eq_zero, List.filter_eq_nil_iff]
  intro i hi
  have hlt : i < st.cmds.length := List.mem_range.mp hi
  have hmem : st.cmds.getD i "" ∈ st.cmds := by
    rw [List.getD_eq_getElem?_getD, List.getElem?_eq_getElem hlt]
    exact List.getElem_mem hlt
  have hfalse := h _ hmem
  simp only [List.getD_eq_getElem?_getD] at hfalse
  simp [hfalse]

set_option maxRecDepth 8000

/-- C1 counterexample. In the spec scenario where, of the gated paths, only
initialize.sh exists, the run does NOT skip commit step 3: because the gate of
step 3 is inverted, the absent .bash_profile.dir is created, staged and
committed, so .bash_profile.dir/ is staged in addition to initialize.sh and
two commits succeed rather than one. -/
theorem c1_counterexample :
    gitAddCmd ".bash_profile.dir/" ∈ (gitOperationsScript envAllOk ["initialize.sh"]).1.cmds
    ∧ successfulCommitCount envAllOk (gitOperationsScript envAllOk ["initialize.sh"]).1 = 2 := by
  constructor
  · decide
  · decide

/-- C1, amended. Given a clean repository where, of the gated paths, only
initialize.sh exists, and every command succeeds, the run performs a status
check, attempts branch creation, skips commit steps 1, 2, 5 and 6, runs step 3
because .bash_profile.dir is absent (creating, staging and committing it),
stages and commits initialize.sh, prints the final status block and log, and
creates exactly two commits in total. -/
theorem c1_scenario_amended :
    (gitOperationsScript envAllOk ["initialize.sh"]).1.cmds
      = ["git status", checkoutNewCmd, gitAddCmd ".bash_profile.dir/", commitCmd msg3,
         gitAddCmd "initialize.sh", commitCmd msg4, "git status", "git log --oneline -10"]
    ∧ (gitOperationsScript envAllOk ["initialize.sh"]).2 = none
    ∧ successfulCommitCount envAllOk (gitOperationsScript envAllOk ["initialize.sh"]).1 = 2
    ∧ OutLine.text "\n=== Final git status ==="
        ∈ (gitOperationsScript envAllOk ["initialize.sh"]).1.output
    ∧ OutLine.text "\n=== Operation complete! ==="
        ∈ (gitOperationsScript envAllOk ["initialize.sh"]).1.output := by
  refine ⟨by decide, by decide, by decide, by decide, by decide⟩

/-- C2 counterexample. For commit step 3 the path named in the precondition
check is .bash_profile.dir, and on a filesystem where it does not exist the
add and commit of that step ARE invoked, because the gate of step 3 is
inverted relative to the other steps. -/
theorem c2_counterexample :
    ".bash_profile.dir" ∉ ([] : List String)
    ∧ gitAddCmd ".bash_profile.dir/" ∈ (gitOperationsScript envAllOk []).1.cmds
    ∧ commitCmd msg3 ∈ (gitOperationsScript envAllOk []).1.cmds := by
  refine ⟨by decide, by decide, by decide⟩

/-- C2, amended. For commit steps 1, 2, 4, 5, 6 and the config-file step of
git_operations.py, and for every environment and starting filesystem, a
missing gate path means the corresponding git add and git commit commands are
never invoked; for step 3 the gate is inverted, so its add and commit are
never invoked exactly when .bash_profile.dir already exists. -/
theorem c2_gates_amended : ∀ (env : Env) (fs0 : List String),
    (".automation/framework/core.sh" ∉ fs0 →
      gitAddCmd ".automation/framework/core.sh" ∉ (gitOperationsScript env fs0).1.cmds
      ∧ commitCmd msg1 ∉ (gitOperationsScript env fs0).1.cmds)
    ∧ (".automation/auto" ∉ fs0 →
      gitAddCmd ".automation/auto" ∉ (gitOperationsScript env fs0).1.cmds
      ∧ commitCmd msg2 ∉ (gitOperationsScript env fs0).1.cmds)
    ∧ ("initialize.sh" ∉ fs0 →
      gitAddCmd "initialize.sh" ∉ (gitOperationsScript env fs0).1.cmds
      ∧ commitCmd msg4 ∉ (gitOperationsScript env fs0).1.cmds)
    ∧ (".automation/modules/tools.sh" ∉ fs0 →
      gitAddCmd ".automation/modules/tools.sh" ∉ (gitOperationsScript env fs0).1.cmds
      ∧ commitCmd msg5 ∉ (gitOperationsScript env fs0).1.cmds)
    ∧ ("Makefile" ∉ fs0 →
      gitAddCmd "Makefile" ∉ (gitOperationsScript env fs0).1.cmds
      ∧ commitCmd msg6 ∉ (gitOperationsScript env fs0).1.cmds)
    ∧ (".bash_profile.dir" ∈ fs0 →
      gitAddCmd ".bash_profile.dir/" ∉ (gitOperationsScript env fs0).1.cmds
      ∧ commitCmd msg3 ∉ (gitOperationsScript env fs0).1.cmds)
    ∧ ("CLAUDE.md" ∉ fs0 → "package.json" ∉ fs0 → "package-lock.json" ∉ fs0 →
      (∀ a ∈ configAddCmds, a ∉ (gitOperationsScript env fs0).1.cmds)
      ∧ commitCmd msgConfig ∉ (gitOperationsScript env fs0).1.cmds) := by
  intro env fs0
  refine ⟨fun hA => ⟨?_, ?_⟩, fun hA => ⟨?_, ?_⟩, fun hA => ⟨?_, ?_⟩, fun hA => ⟨?_, ?_⟩,
    fun hA => ⟨?_, ?_⟩, fun hA => ⟨?_, ?_⟩,
    fun hA hB hC => ⟨fun a ha => gitOps_no_config_cmds hA hB hC (Or.inl ha),
      gitOps_no_config_cmds hA hB hC (Or.inr rfl)⟩⟩
  · exact gitOps_not_mem_of (by decide) (by decide) (by decide) (by decide)
      (fun hg => absurd hg hA) (fun _ => by decide) (fun _ => by decide)
      (fun _ => by decide) (fun _ => by decide) (fun _ => by decide) (fun _ => by decide)
  · exact gitOps_not_mem_of (by decide) (by decide) (by decide) (by decide)
      (fun hg => absurd hg hA) (fun _ => by decide) (fun _ => by decide)
      (fun _ => by decide) (fun _ => by decide) (fun _ => by decide) (fun _ => by decide)
  · exact gitOps_not_mem_of (by decide) (by decide) (by decide) (by decide)
      (fun _ => by decide) (fun hg => absurd hg hA) (fun _ => by decide)
      (fun _ => by decide) (fun _ => by decide) (fun _ => by decide) (fun _ => by decide)
  · exact gitOps_not_mem_of (by decide) (by decide) (by decide) (by decide)
      (fun _ => by decide) (fun hg => absurd hg hA) (fun _ => by decide)
      (fun _ => by decide) (fun _ => by decide) (fun _ => by decide) (fun _ => by decide)
  · exact gitOps_not_mem_of (by decide) (by decide) (by decide) (by decide)
      (fun _ => by decide) (fun _ => by decide) (fun _ => by decide)
      (fun hg => absurd hg hA) (fun _ => by decide) (fun _ => by decide) (fun _ => by decide)
  · exact gitOps_not_mem_of (by decide) (by decide) (by decide) (by decide)
      (fun _ => by decide) (fun _ => by decide) (fun _ => by decide)
      (fun hg => absurd hg hA) (fun _ => by decide) (fun _ => by decide) (fun _ => by decide)
  · exact gitOps_not_mem_of (by decide) (by decide) (by decide) (by decide)
      (fun _ => by decide) (fun _ => by decide) (fun _ => by decide)
      (fun _ => by decide) (fun hg => absurd hg hA) (fun _ => by decide) (fun _ => by decide)
  · exact gitOps_not_mem_of (by decide) (by decide) (by decide) (by decide)
      (fun _ => by decide) (fun _ => by decide) (fun _ => by decide)
      (fun _ => by decide) (fun hg => absurd hg hA) (fun _ => by decide) (fun _ => by decide)
  · exact gitOps_not_mem_of (by decide) (by decide) (by decide) (by decide)
      (fun _ => by decide) (fun _ => by decide) (fun _ => by decide)
      (fun _ => by decide) (fun _ => by decide) (fun hg => absurd hg hA) (fun _ => by decide)
  · exact gitOps_not_mem_of (by decide) (by decide) (by decide) (by decide)
      (fun _ => by decide) (fun _ => by decide) (fun _ => by decide)
      (fun _ => by decide) (fun _ => by decide) (fun hg => absurd hg hA) (fun _ => by decide)
  · exact gitOps_not_mem_of (by decide) (by decide) (by decide) (by decide)
      (fun _ => by decide) (fun _ => by decide) (fun hg => absurd hA hg)
      (fun _ => by decide) (fun _ => by decide) (fun _ => by decide) (fun _ => by decide)
  · exact gitOps_not_mem_of (by decide) (by decide) (by decide) (by decide)
      (fun _ => by decide) (fun _ => by decide) (fun hg => absurd hA hg)
      (fun _ => by decide) (fun _ => by decide) (fun _ => by decide) (fun _ => by decide)

/-- C2 witness. On a filesystem holding only .bash_profile.dir, with every
command succeeding, the step 1 add command, the inverted step 3 add command
and the config commit are all absent from the trace. -/
theorem c2_gates_witness :
    gitAddCmd ".automation/framework/core.sh"
      ∉ (gitOperationsScript envAllOk [".bash_profile.dir"]).1.cmds
    ∧ gitAddCmd ".bash_profile.dir/"
      ∉ (gitOperationsScript envAllOk [".bash_profile.dir"]).1.cmds
    ∧ commitCmd msgConfig ∉ (gitOperationsScript envAllOk [".bash_profile.dir"]).1.cmds := by
  have h := c2_gates_amended envAllOk [".bash_profile.dir"]
  exact ⟨(h.1 (by decide)).1, (h.2.2.2.2.2.1 (by decide)).1,
    (h.2.2.2.2.2.2 (by decide) (by decide) (by decide)).2⟩

/-- C3 counterexample. The runners return a bare boolean, not a result with an
exit_code field: for two commands whose children terminate with the distinct
codes 1 and 2, both run_git_command and execute_command return the very same
value, so the returned value cannot equal the termination code. -/
theorem c3_counterexample :
    (runGitCommand (envCode 1) "false" (initState [])).1
      = (runGitCommand (envCode 2) "false" (initState [])).1
    ∧ (executeCommand (envCode 1) "false" (initState [])).1
      = (executeCommand (envCode 2) "false" (initState [])).1
    ∧ (1 : Int) ≠ 2 := by
  refine ⟨by decide, by decide, by decide⟩

/-- C3, amended. Whenever the child process actually terminates, both
run_git_command and execute_command compute their boolean result from the
actual termination code, returning true exactly when that code is zero, and
execute_command additionally prints the actual termination code; the full
CommandResult is consumed for logging and discarded, not returned. -/
theorem c3_exit_code_amended : ∀ (env : Env) (cmd : String) (s : ScriptState)
    (r : CommandResult), env.run s.idx = .ok r →
    (runGitCommand env cmd s).1 = (r.returncode == 0)
    ∧ (executeCommand env cmd s).1 = (r.returncode == 0)
    ∧ OutLine.returnCode r.returncode ∈ (executeCommand env cmd s).2.output := by
  intro env cmd s r h
  refine ⟨by simp [h, isSuccess], by simp [h, isSuccess], ?_⟩
  unfold executeCommand
  simp [h, pushOut]

/-- C3 witness. For a command whose child terminates with code 2, both runners
return the boolean comparison of 2 with 0, and the Return code line printed by
execute_command carries the code 2. -/
theorem c3_exit_code_witness :
    (runGitCommand (envCode 2) "false" (initState [])).1 = ((2 : Int) == 0)
    ∧ (executeCommand (envCode 2) "false" (initState [])).1 = ((2 : Int) == 0)
    ∧ OutLine.returnCode 2 ∈ (executeCommand (envCode 2) "false" (initState [])).2.output :=
  c3_exit_code_amended (envCode 2) "false" (initState []) (mkRes 2) rfl

/-- C4 counterexample. In run_git_commands.py a failing git checkout -b is
followed by no fallback checkout of the existing branch: with the branch
creation failing, the plain git checkout command never appears in its trace. -/
theorem c4_counterexample :
    isSuccess (envBranchFails.run 1) = false
    ∧ checkoutExistingCmd ∉ (runGitCommandsScript envBranchFails []).1.cmds := by
  refine ⟨by decide, by decide⟩

/-- C4, amended. When the branch already exists and git checkout -b therefore
fails, neither script errors fatally: git_operations.py catches the failure
and attempts a plain git checkout of the existing branch, while
run_git_commands.py merely ignores the failure, attempts no fallback checkout,
and still runs to completion. -/
theorem c4_branch_fallback_amended : ∀ (env : Env) (fs0 : List String),
    env.chdir = none → isSuccess (env.run 1) = false →
    checkoutExistingCmd ∈ (gitOperationsScript env fs0).1.cmds
    ∧ checkoutExistingCmd ∉ (runGitCommandsScript env fs0).1.cmds
    ∧ (runGitCommandsScript env fs0).2 = none := by
  intro env fs0 hcd hb
  refine ⟨?_, ?_, runGitCommandsScript_fatal env fs0 hcd⟩
  · have hstage := @stagedState_fallback env fs0 hb
    unfold gitOperationsScript
    rw [hcd]
    rcases hcs : configStep env (stagedState env fs0) with ⟨s', g⟩
    have hs' : checkoutExistingCmd ∈ s'.cmds := by
      have h2 := @configStep_cmds_mono env (stagedState env fs0) checkoutExistingCmd hstage
      rw [hcs] at h2
      exact h2
    cases g
    · dsimp
      exact finalPhase_cmds_mono hs'
    · dsimp
      exact hs'
  · rw [runGitCommandsScript_cmds env fs0 hcd]
    decide

/-- C4 witness. With the second invocation failing with code 1 and everything
else succeeding, the fallback checkout appears in the git_operations.py trace,
run_git_commands.py issues no fallback, and run_git_commands.py completes. -/
theorem c4_branch_fallback_witness :
    checkoutExistingCmd ∈ (gitOperationsScript envBranchFails []).1.cmds
    ∧ checkoutExistingCmd ∉ (runGitCommandsScript envBranchFails []).1.cmds
    ∧ (runGitCommandsScript envBranchFails []).2 = none :=
  c4_branch_fallback_amended envBranchFails [] rfl (by decide)

/-- C5, confirmed. For every command, neither runner raises to its caller: a
completed child with any exit status yields the boolean comparison of the
status with zero, and an invocation exception is caught, logged as a text line
holding the exception message, and turned into a false return value. -/
theorem c5_runner_error_handling : ∀ (env : Env) (cmd : String) (s : ScriptState),
    (∀ e, env.run s.idx = .exn e →
      (runGitCommand env cmd s).1 = false
      ∧ OutLine.exceptionLine cmd e ∈ (runGitCommand env cmd s).2.output
      ∧ (executeCommand env cmd s).1 = false
      ∧ OutLine.errorExecuting e ∈ (executeCommand env cmd s).2.output)
    ∧ ∀ r, env.run s.idx = .ok r →
      (runGitCommand env cmd s).1 = (r.returncode == 0)
      ∧ (executeCommand env cmd s).1 = (r.returncode == 0) := by
  intro env cmd s
  constructor
  · intro e h
    refine ⟨by simp [h, isSuccess], ?_, by simp [h, isSuccess], ?_⟩
    · unfold runGitCommand
      simp [h]
    · unfold executeCommand
      simp [h, pushOut]
  · intro r h
    exact ⟨by simp [h, isSuccess], by simp [h, isSuccess]⟩

/-- C5 witness. With every invocation raising a missing-executable exception,
both runners return false and print the exception text. -/
theorem c5_runner_error_handling_witness :
    (runGitCommand envRaises "git status" (initState [])).1 = false
    ∧ OutLine.exceptionLine "git status" "No such file or directory"
        ∈ (runGitCommand envRaises "git status" (initState [])).2.output
    ∧ (executeCommand envRaises "git status" (initState [])).1 = false
    ∧ OutLine.errorExecuting "No such file or directory"
        ∈ (executeCommand envRaises "git status" (initState [])).2.output :=
  (c5_runner_error_handling envRaises "git status" (initState [])).1
    "No such file or directory" rfl

/-- C6 counterexample. An invocation exception at the raw, unguarded
git diff --cached --quiet call of git_operations.py terminates the run early:
with CLAUDE.md present and the fourth invocation raising, the run ends with an
uncaught exception and the final status block and log are never printed. -/
theorem c6_counterexample :
    (gitOperationsScript envDiffRaises [".bash_profile.dir", "CLAUDE.md"]).2
      = some (Fatal.rawRunFail "git diff --cached --quiet" "boom")
    ∧ OutLine.text "\n=== Final git status ==="
        ∉ (gitOperationsScript envDiffRaises [".bash_profile.dir", "CLAUDE.md"]).1.output
    ∧ OutLine.text "\n=== Operation complete! ==="
        ∉ (gitOperationsScript envDiffRaises [".bash_profile.dir", "CLAUDE.md"]).1.output := by
  refine ⟨by decide, by decide, by decide⟩

/-- C6, amended. Errors at every step routed through run_git_command are
non-fatal, and whenever git_operations.py does run to completion it prints the
final status block and log; the only two ways the run can terminate early are
a failing initial directory change and an invocation exception at the one raw
subprocess call, git diff --cached --quiet, which is not wrapped in a try
block. -/
theorem c6_completion_amended : ∀ (env : Env) (fs0 : List String),
    ((gitOperationsScript env fs0).2 = none →
      OutLine.text "\n=== Final git status ===" ∈ (gitOperationsScript env fs0).1.output
      ∧ OutLine.text "\n=== Operation complete! ===" ∈ (gitOperationsScript env fs0).1.output
      ∧ "git log --oneline -10" ∈ (gitOperationsScript env fs0).1.cmds)
    ∧ ∀ f, (gitOperationsScript env fs0).2 = some f →
      (∃ m, f = Fatal.chdirFail m)
      ∨ ∃ m, f = Fatal.rawRunFail "git diff --cached --quiet" m :=
  fun _ _ => ⟨fun h => gitOps_complete h, fun _ h => gitOps_fatal_sub h⟩

/-- C6 witness. With every command failing with exit code 1 and no config file
present, the run still completes and prints the final status block and log. -/
theorem c6_completion_witness :
    OutLine.text "\n=== Final git status ===" ∈ (gitOperationsScript (envCode 1) []).1.output
    ∧ OutLine.text "\n=== Operation complete! ==="
        ∈ (gitOperationsScript (envCode 1) []).1.output
    ∧ "git log --oneline -10" ∈ (gitOperationsScript (envCode 1) []).1.cmds :=
  (c6_completion_amended (envCode 1) []).1 (by decide)

/-- C7 counterexample. git_operations.py does mutate the working tree itself:
started on an empty filesystem it creates the .bash_profile.dir directory and
writes the empty .bash_profile.dir/.gitkeep file. -/
theorem c7_counterexample :
    (gitOperationsScript envAllOk []).1.fs
      = [".bash_profile.dir", ".bash_profile.dir/.gitkeep"]
    ∧ (gitOperationsScript envAllOk []).1.fs ≠ ([] : List String) := by
  refine ⟨by decide, by decide⟩

/-- C7, amended. The only direct filesystem mutation of either script is
commit step 3 of git_operations.py: when the run gets past the directory
change and .bash_profile.dir is absent, the script creates that directory and
writes .bash_profile.dir/.gitkeep, and otherwise both scripts leave every path
of the working tree unchanged; run_git_commands.py never touches the
filesystem. -/
theorem c7_frame_amended : ∀ (env : Env) (fs0 : List String),
    (gitOperationsScript env fs0).1.fs
      = (if env.chdir = none ∧ ".bash_profile.dir" ∉ fs0
         then fs0 ++ [".bash_profile.dir", ".bash_profile.dir/.gitkeep"] else fs0)
    ∧ (runGitCommandsScript env fs0).1.fs = fs0 :=
  fun env fs0 => ⟨gitOps_fs_char env fs0, runGitCommandsScript_fs env fs0⟩

/-- C8 counterexample. run_git_command writes no success or failure indication
for an invocation: a succeeding command and a failing command with identical
captured streams produce exactly the same printed lines. -/
theorem c8_counterexample :
    (runGitCommand (envStderrCode 0) "git status" (initState [])).2.output
      = (runGitCommand (envStderrCode 1) "git status" (initState [])).2.output
    ∧ (runGitCommand (envStderrCode 0) "git status" (initState [])).1 = true
    ∧ (runGitCommand (envStderrCode 1) "git status" (initState [])).1 = false := by
  refine ⟨by decide, by decide, by decide⟩

/-- C8, amended. For every completed invocation, execute_command prints the
command text, the captured stdout when nonempty, the captured stderr when
nonempty and the numeric return code, which indicates success or failure,
while run_git_command prints the command text, the captured streams when
nonempty and a separator, but no success or failure indication. -/
theorem c8_logging_amended : ∀ (env : Env) (cmd : String) (s : ScriptState)
    (r : CommandResult), env.run s.idx = .ok r →
    (executeCommand env cmd s).2.output
      = s.output ++ [OutLine.executing cmd]
        ++ (if r.stdout ≠ "" then [OutLine.text r.stdout] else [])
        ++ (if r.stderr ≠ "" then [OutLine.stderrLine r.stderr] else [])
        ++ [OutLine.returnCode r.returncode]
    ∧ (runGitCommand env cmd s).2.output
      = s.output ++ [OutLine.commandLine cmd]
        ++ (if r.stdout ≠ "" then [OutLine.outputLine r.stdout] else [])
        ++ (if r.stderr ≠ "" then [OutLine.errorLine r.stderr] else [])
        ++ [OutLine.separator] := by
  intro env cmd s r h
  constructor
  · unfold executeCommand
    simp [h, pushOut]
  · unfold runGitCommand
    simp [h]

/-- C8 witness. For a failing command with empty stdout and a warning on
stderr, the two runners print exactly the characterized lines. -/
theorem c8_logging_witness :
    (executeCommand (envStderrCode 1) "git status" (initState [])).2.output
      = [OutLine.executing "git status", OutLine.stderrLine "warning", OutLine.returnCode 1]
    ∧ (runGitCommand (envStderrCode 1) "git status" (initState [])).2.output
      = [OutLine.commandLine "git status", OutLine.errorLine "warning", OutLine.separator] := by
  have h := c8_logging_amended (envStderrCode 1) "git status" (initState [])
    { returncode := 1, stdout := "", stderr := "warning" } rfl
  constructor
  · rw [h.1]
    decide
  · rw [h.2]
    decide

/-- C9, confirmed. Both run_git_command and execute_command return a single
boolean that is true exactly when the invocation completed with exit status
zero, and false both for a nonzero exit status and for an invocation
exception, so the caller cannot distinguish the two error classes from the
return value, as the final collision of an exception run with an exit-code-1
run shows. -/
theorem c9_boolean_return : ∀ (env : Env) (cmd : String) (s : ScriptState),
    ((runGitCommand env cmd s).1 = isSuccess (env.run s.idx)
    ∧ (executeCommand env cmd s).1 = isSuccess (env.run s.idx))
    ∧ (runGitCommand (envCode 1) "git status" (initState [])).1
        = (runGitCommand envRaises "git status" (initState [])).1 := by
  intro env cmd s
  exact ⟨⟨runGitCommand_fst env cmd s, executeCommand_fst env cmd s⟩, by decide⟩

/-- C10, confirmed. Whenever the initial directory change succeeds,
run_git_commands.py issues exactly the three commands git status, git checkout
dash b of the fixed branch, and git branch, in that order, regardless of the
filesystem and of every command outcome; it stages nothing, commits nothing,
creates no successful commit, reads no filesystem state, and completes. -/
theorem c10_fixed_commands : ∀ (env : Env) (fs0 : List String), env.chdir = none →
    (runGitCommandsScript env fs0).1.cmds
      = ["git status", "git checkout -b fix/automation-framework-compatibility",
         "git branch"]
    ∧ (∀ c ∈ (runGitCommandsScript env fs0).1.cmds,
        isAddInvocation c = false ∧ isCommitInvocation c = false)
    ∧ successfulCommitCount env (runGitCommandsScript env fs0).1 = 0
    ∧ (∀ fs1, (runGitCommandsScript env fs1).1.cmds = (runGitCommandsScript env fs0).1.cmds
        ∧ (runGitCommandsScript env fs1).1.output = (runGitCommandsScript env fs0).1.output)
    ∧ (runGitCommandsScript env fs0).2 = none := by
  intro env fs0 hcd
  have hc := runGitCommandsScript_cmds env fs0 hcd
  have hall : ∀ c ∈ (runGitCommandsScript env fs0).1.cmds,
      isAddInvocation c = false ∧ isCommitInvocation c = false := by
    intro c hmem
    rw [hc] at hmem
    simp at hmem
    rcases hmem with rfl | rfl | rfl
    · exact ⟨by decide, by decide⟩
    · exact ⟨by decide, by decide⟩
    · exact ⟨by decide, by decide⟩
  refine ⟨hc, hall, successfulCommitCount_eq_zero (fun c hm => (hall c hm).2), ?_,
    runGitCommandsScript_fatal env fs0 hcd⟩
  intro fs1
  exact runGitCommandsScript_fs_independent env fs1 fs0 hcd

/-- C10 witness. On an empty filesystem with every command succeeding, the
trace of run_git_commands.py is exactly the three fixed commands. -/
theorem c10_fixed_commands_witness :
    (runGitCommandsScript envAllOk []).1.cmds
      = ["git status", "git checkout -b fix/automation-framework-compatibility",
         "git branch"] :=
  (c10_fixed_commands envAllOk [] rfl).1

end Acorn
